import Mathlib

/-!
Verification of the reconciliation core of `sync.py` (Airtable CSV sync tool).

The embedding follows the source:
* `Record` / `RecordSet` model the Python record dictionaries keyed by email
  (`load_csv_data` / `load_airtable_data` produce `Dict[str, Dict]` with the
  fields `first_name`, `last_name`, `updated_at`); a `RecordSet` is an
  association list in iteration order, with pairwise-distinct keys when it
  comes from an actual Python dict.
* `parse_timestamp` models `sync.py`'s `parse_timestamp` (lines 123-130):
  strip the fractional part when the string contains `'.'` and ends with
  `'Z'`, replace every `'Z'` by `"+00:00"`, then call
  `datetime.fromisoformat`.  `fromisoformat` is modelled after CPython's
  strict (pre-3.11) grammar `YYYY-MM-DD[*HH[:MM[:SS[.fff[fff]]]][+HH:MM[:SS[.ffffff]]]]`
  with numeric components as digit runs; failure (Python `ValueError`)
  is the spec's `MalformedTimestamp` condition.
* `compare_datasets` models `sync.py`'s `compare_datasets` (lines 133-175):
  sorted union of the keys, then per key CREATE / UPDATE / NONE.  A Python
  exception anywhere aborts the whole run with no partial output, which the
  embedding renders as `Except`: comparing an offset-aware with an
  offset-naive instant is Python's `TypeError`, an unparseable timestamp is
  `MalformedTimestamp`.
-/

namespace Sync

/-- A contact record as loaded from the CSV file or the Airtable API
(fields `first_name`, `last_name`, `updated_at`, see `sync.py` lines 61-65
and 100-104). -/
structure Record where
  first_name : String
  last_name : String
  updated_at : String
deriving DecidableEq

/-- A keyed record collection (Python `Dict[str, Dict]`), as an association
list in iteration order.  Python dict keys are pairwise distinct; theorems
that need this state it as a `Nodup` hypothesis. -/
abbrev RecordSet := List (String × Record)

/-- One emitted `(operation, target, email)` tuple of `compare_datasets`. -/
abbrev SyncOp := String × String × String

/-- The exceptions the comparison core can raise: `malformedTimestamp` is the
`ValueError` from `datetime.fromisoformat` (the spec's `MalformedTimestamp`),
`typeError` is Python's `TypeError` from ordering an offset-aware against an
offset-naive datetime, `keyError` is a dict `KeyError` (unreachable from
`compare_datasets`). -/
inductive SyncError where
  | malformedTimestamp
  | typeError
  | keyError
deriving DecidableEq

/-- A parsed `datetime` value: calendar fields plus an optional UTC offset in
microseconds (`none` models an offset-naive datetime). -/
structure DT where
  year : Nat
  month : Nat
  day : Nat
  hour : Nat
  minute : Nat
  second : Nat
  microsecond : Nat
  tzOffset : Option Int
deriving DecidableEq

/-- Gregorian leap-year rule, as in Python's `datetime` module. -/
def isLeapYear (y : Nat) : Bool :=
  y % 4 == 0 && (y % 100 != 0 || y % 400 == 0)

/-- Number of days in a month of a given year, as in Python's `datetime`. -/
def daysInMonth (y m : Nat) : Nat :=
  if m == 2 then (if isLeapYear y then 29 else 28)
  else if m == 4 || m == 6 || m == 9 || m == 11 then 30
  else 31

/-- Days in year `y` strictly before month `m`. -/
def daysBeforeMonth (y m : Nat) : Nat :=
  (List.range (m - 1)).foldl (fun acc i => acc + daysInMonth y (i + 1)) 0

/-- Proleptic-Gregorian ordinal of a date (Python's `date.toordinal`):
day number with `0001-01-01` as day 1. -/
def toOrdinal (y m d : Nat) : Nat :=
  let py := y - 1
  365 * py + py / 4 - py / 100 + py / 400 + daysBeforeMonth y m + d

/-- Numeric value of a decimal digit character. -/
def digitVal (c : Char) : Nat := c.toNat - 48

/-- Value of a run of decimal digit characters. -/
def digitsToNat (cs : List Char) : Nat :=
  cs.foldl (fun n c => 10 * n + digitVal c) 0

/-- Parse exactly two leading decimal digits (a `HH`/`MM`/`SS` component of
CPython's `_parse_hh_mm_ss_ff`), returning the value and the rest. -/
def parse2 : List Char → Option (Nat × List Char)
  | c1 :: c2 :: rest =>
    if c1.isDigit && c2.isDigit then
      some (10 * digitVal c1 + digitVal c2, rest)
    else none
  | _ => none

/-- CPython `_parse_isoformat_date`: exactly `YYYY-MM-DD`, validated by the
`date` constructor (year at least 1, month 1-12, day within the month). -/
def parseDate : List Char → Option (Nat × Nat × Nat)
  | [y1, y2, y3, y4, s1, m1, m2, s2, d1, d2] =>
    if y1.isDigit && y2.isDigit && y3.isDigit && y4.isDigit && s1 == '-' &&
       m1.isDigit && m2.isDigit && s2 == '-' && d1.isDigit && d2.isDigit then
      let y := digitsToNat [y1, y2, y3, y4]
      let m := digitsToNat [m1, m2]
      let d := digitsToNat [d1, d2]
      if 1 ≤ y ∧ 1 ≤ m ∧ m ≤ 12 ∧ 1 ≤ d ∧ d ≤ daysInMonth y m then
        some (y, m, d)
      else none
    else none
  | _ => none

/-- The fractional-seconds tail of CPython `_parse_hh_mm_ss_ff`: exactly 3 or
6 digits after the dot; 3 digits are milliseconds. -/
def parseFraction (cs : List Char) : Option Nat :=
  if cs.length == 3 && cs.all Char.isDigit then some (digitsToNat cs * 1000)
  else if cs.length == 6 && cs.all Char.isDigit then some (digitsToNat cs)
  else none

/-- CPython `_parse_hh_mm_ss_ff`: `HH[:MM[:SS[.fff[fff]]]]`, returning
`(hour, minute, second, microsecond)`. -/
def parseHMSF (cs : List Char) : Option (Nat × Nat × Nat × Nat) :=
  match parse2 cs with
  | none => none
  | some (h, r1) =>
    match r1 with
    | [] => some (h, 0, 0, 0)
    | ':' :: r2 =>
      match parse2 r2 with
      | none => none
      | some (mi, r3) =>
        match r3 with
        | [] => some (h, mi, 0, 0)
        | ':' :: r4 =>
          match parse2 r4 with
          | none => none
          | some (s, r5) =>
            match r5 with
            | [] => some (h, mi, s, 0)
            | '.' :: r6 => (parseFraction r6).map (fun us => (h, mi, s, us))
            | _ => none
        | _ => none
    | _ => none

/-- Split a time string at its timezone sign, as CPython
`_parse_isoformat_time` does: the first `'-'` anywhere wins, otherwise the
first `'+'`; the returned `Bool` is `true` for a negative sign. -/
def findSplit (c : Char) : List Char → Option (List Char × List Char)
  | [] => none
  | x :: xs =>
    if x == c then some ([], xs)
    else (findSplit c xs).map (fun p => (x :: p.1, p.2))

/-- See `findSplit`: `(time part, optional (isNegative, tz part))`. -/
def splitTz (cs : List Char) : List Char × Option (Bool × List Char) :=
  match findSplit '-' cs with
  | some (a, b) => (a, some (true, b))
  | none =>
    match findSplit '+' cs with
    | some (a, b) => (a, some (false, b))
    | none => (cs, none)

/-- CPython `_parse_isoformat_time` followed by the `time`/`timezone`
constructor checks: hour at most 23, minute and second at most 59, timezone
magnitude strictly below 24 hours, an all-zero offset is UTC regardless of
sign.  Returns `(hour, minute, second, microsecond, offset)` with the offset
in microseconds. -/
def parseTime (cs : List Char) : Option (Nat × Nat × Nat × Nat × Option Int) :=
  if cs.length < 2 then none
  else
    match splitTz cs with
    | (timestr, none) =>
      match parseHMSF timestr with
      | none => none
      | some (h, mi, s, us) =>
        if h ≤ 23 ∧ mi ≤ 59 ∧ s ≤ 59 then some (h, mi, s, us, none) else none
    | (timestr, some (neg, tzstr)) =>
      match parseHMSF timestr with
      | none => none
      | some (h, mi, s, us) =>
        if tzstr.length = 5 ∨ tzstr.length = 8 ∨ tzstr.length = 15 then
          match parseHMSF tzstr with
          | none => none
          | some (th, tmi, ts, tus) =>
            let mag : Nat := (th * 3600 + tmi * 60 + ts) * 1000000 + tus
            if h ≤ 23 ∧ mi ≤ 59 ∧ s ≤ 59 then
              if mag = 0 then some (h, mi, s, us, some 0)
              else if mag < 86400000000 then
                some (h, mi, s, us, some (if neg then -(mag : Int) else (mag : Int)))
              else none
            else none
        else none

/-- CPython (pre-3.11) `datetime.fromisoformat`: the first ten characters are
the date, the character at index 10 (any character) separates date and time,
the rest is the time-with-offset part; a string of exactly ten characters is
a date at midnight, offset-naive. -/
def fromisoformat (cs : List Char) : Option DT :=
  match parseDate (cs.take 10) with
  | none => none
  | some (y, m, d) =>
    if cs.length = 10 then some ⟨y, m, d, 0, 0, 0, 0, none⟩
    else
      match cs.drop 11 with
      | [] => none
      | tstr =>
        match parseTime tstr with
        | none => none
        | some (h, mi, s, us, off) => some ⟨y, m, d, h, mi, s, us, off⟩

/-- Whether the character list ends with `'Z'` (Python `str.endswith('Z')`). -/
def endsWithZ (cs : List Char) : Bool := cs.getLast? == some 'Z'

/-- `sync.py` lines 126-127: when the string contains `'.'` and ends with
`'Z'`, keep everything before the first `'.'` (Python `split('.')[0]`) and
append `'Z'`. -/
def stripFraction (cs : List Char) : List Char :=
  if cs.contains '.' && endsWithZ cs then
    cs.takeWhile (fun c => c != '.') ++ ['Z']
  else cs

/-- Python `str.replace('Z', '+00:00')`: every occurrence of `'Z'` becomes
`"+00:00"`. -/
def replaceZ : List Char → List Char
  | [] => []
  | c :: rest =>
    if c == 'Z' then '+' :: '0' :: '0' :: ':' :: '0' :: '0' :: replaceZ rest
    else c :: replaceZ rest

/-- `sync.py` `parse_timestamp` (lines 123-130): strip the fraction, expand
`'Z'`, then `datetime.fromisoformat`; an unparseable string raises, which the
spec calls `MalformedTimestamp`. -/
def parse_timestamp (s : String) : Except SyncError DT :=
  match fromisoformat (replaceZ (stripFraction s.data)) with
  | some dt => .ok dt
  | none => .error .malformedTimestamp

/-- Wall-clock microseconds of a parsed datetime (offset ignored). -/
def wallMicro (t : DT) : Int :=
  ((toOrdinal t.year t.month t.day * 86400 + t.hour * 3600 + t.minute * 60 +
      t.second) * 1000000 + t.microsecond : Nat)

/-- Absolute position of a datetime on the UTC timeline in microseconds; for
an offset-naive value this is just the wall clock, matching how Python
compares two naive datetimes. -/
def toTimeline (t : DT) : Int := wallMicro t - (t.tzOffset.getD 0)

/-- Two datetimes are comparable for `<` and `>` in Python exactly when both
are offset-aware or both are offset-naive. -/
def dtComparable (a b : DT) : Bool := a.tzOffset.isSome == b.tzOffset.isSome

/-- Python `==` on datetimes: an aware and a naive value are unequal (no
exception), otherwise instants are compared. -/
def dtEq (a b : DT) : Bool := dtComparable a b && (toTimeline a == toTimeline b)

/-- Python `>` on datetimes: raises `TypeError` on an aware/naive mix,
otherwise compares instants. -/
def dtGt (a b : DT) : Except SyncError Bool :=
  if dtComparable a b then .ok (decide (toTimeline a > toTimeline b))
  else .error .typeError

/-- Membership/subscript on a record dict: the value stored at a key. -/
def lookup (e : String) (rs : RecordSet) : Option Record :=
  (rs.find? (fun p => p.1 == e)).map Prod.snd

/-- Lexicographic strict order on character lists by code point, the order
Python uses on `str`; `charListLt_iff` proves it coincides with the `<` of
`String` via `String.lt_iff_toList_lt`. -/
def charListLt : List Char → List Char → Bool
  | [], [] => false
  | [], _ :: _ => true
  | _ :: _, [] => false
  | a :: as, b :: bs =>
    if a < b then true else if b < a then false else charListLt as bs

/-- `<` on strings, executable in the kernel. -/
def strLt (a b : String) : Bool := charListLt a.data b.data

/-- Insert a key into an ascending duplicate-free list, keeping it ascending
and duplicate-free. -/
def sortedInsert (x : String) : List String → List String
  | [] => [x]
  | y :: ys =>
    if strLt x y then x :: y :: ys
    else if x = y then y :: ys
    else y :: sortedInsert x ys

/-- Python `sorted(set(keys))`: the ascending duplicate-free enumeration of a
key list.  The lemmas `sorted_lt_sortedKeySet`, `mem_sortedKeySet` and
`sorted_lt_eq_of_mem_iff` prove the characterization that makes this the
unique such function. -/
def sortedKeySet (keys : List String) : List String :=
  keys.foldr sortedInsert []

/-- `sync.py` lines 145-148: `sorted(set(csv_data.keys()) | set(airtable_data.keys()))`. -/
def sortedEmails (csv_data airtable_data : RecordSet) : List String :=
  sortedKeySet (csv_data.map Prod.fst ++ airtable_data.map Prod.fst)

/-- The per-email body of the `compare_datasets` loop (`sync.py` lines
148-173): CREATE toward the side missing the record, otherwise parse both
timestamps and emit NONE / UPDATE by comparison.  The final `keyError` arm
models the dict subscript on the `else` branch and is unreachable for emails
drawn from the key union. -/
def classify (csv_data airtable_data : RecordSet) (email : String) :
    Except SyncError SyncOp :=
  let in_csv := (lookup email csv_data).isSome
  let in_airtable := (lookup email airtable_data).isSome
  if in_csv && !in_airtable then .ok ("CREATE", "AIRTABLE", email)
  else if !in_csv && in_airtable then .ok ("CREATE", "CSV", email)
  else
    match lookup email csv_data, lookup email airtable_data with
    | some c, some a =>
      match parse_timestamp c.updated_at with
      | .error er => .error er
      | .ok csv_time =>
        match parse_timestamp a.updated_at with
        | .error er => .error er
        | .ok airtable_time =>
          if dtEq csv_time airtable_time then .ok ("NONE", "", email)
          else
            match dtGt csv_time airtable_time with
            | .error er => .error er
            | .ok g =>
              .ok (if g then ("UPDATE", "AIRTABLE", email)
                   else ("UPDATE", "CSV", email))
    | _, _ => .error .keyError

/-- The `compare_datasets` loop with its `results` accumulator: a raised
exception aborts the whole run, so no partial `results` list ever escapes. -/
def compareGo (csv_data airtable_data : RecordSet) :
    List String → List SyncOp → Except SyncError (List SyncOp)
  | [], acc => .ok acc
  | e :: rest, acc =>
    match classify csv_data airtable_data e with
    | .error er => .error er
    | .ok op => compareGo csv_data airtable_data rest (acc ++ [op])

/-- `sync.py` `compare_datasets` (lines 133-175). -/
def compare_datasets (csv_data airtable_data : RecordSet) :
    Except SyncError (List SyncOp) :=
  compareGo csv_data airtable_data (sortedEmails csv_data airtable_data) []

/-- The two input mappings as the mutable state visible to
`compare_datasets`. -/
structure SyncState where
  csv_data : RecordSet
  airtable_data : RecordSet
deriving DecidableEq

/-- The comparison loop in explicit state-passing form: every step reads the
record sets from the state and threads the state through unchanged. -/
def compareGoSt : List String → List SyncOp → SyncState →
    Except SyncError (List SyncOp) × SyncState
  | [], acc, st => (.ok acc, st)
  | e :: rest, acc, st =>
    match classify st.csv_data st.airtable_data e with
    | .error er => (.error er, st)
    | .ok op => compareGoSt rest (acc ++ [op]) st

/-- `compare_datasets` in state-passing form, for the frame property. -/
def compare_datasets_st (st : SyncState) :
    Except SyncError (List SyncOp) × SyncState :=
  compareGoSt (sortedEmails st.csv_data st.airtable_data) [] st

/-- Structural effect-free `mapM` over `Except`, the specification of the
comparison loop. -/
def mapE {α β : Type} (f : α → Except SyncError β) :
    List α → Except SyncError (List β)
  | [] => .ok []
  | a :: l =>
    match f a with
    | .error er => .error er
    | .ok b =>
      match mapE f l with
      | .error er => .error er
      | .ok bs => .ok (b :: bs)

/-- Whether an `Except` value is a success. -/
def exIsOk {α : Type} : Except SyncError α → Bool
  | .ok _ => true
  | .error _ => false

/-- Success projection with a default. -/
def exOk {α : Type} (d : α) : Except SyncError α → α
  | .ok b => b
  | .error _ => d

/-- Compatibility of two parse results: vacuous unless both succeed, in which
case the two instants must be mutually comparable (both aware or both
naive). -/
def parsedCompatible (x y : Except SyncError DT) : Bool :=
  match x, y with
  | .ok a, .ok b => dtComparable a b
  | _, _ => true

instance {ε α : Type} [DecidableEq ε] [DecidableEq α] : DecidableEq (Except ε α) := fun x y =>
  match x, y with
  | .ok a, .ok b =>
    if h : a = b then .isTrue (by rw [h]) else .isFalse (by intro hc; cases hc; exact h rfl)
  | .ok _, .error _ => .isFalse (by intro hc; cases hc)
  | .error _, .ok _ => .isFalse (by intro hc; cases hc)
  | .error e, .error f =>
    if h : e = f then .isTrue (by rw [h]) else .isFalse (by intro hc; cases hc; exact h rfl)

/-! ### The executable string order agrees with the mathematical one -/

theorem charListLt_iff : ∀ l1 l2 : List Char,
    charListLt l1 l2 = true ↔ List.Lex (· < ·) l1 l2
  | [], [] => by
    simp only [charListLt, Bool.false_eq_true, false_iff]
    exact List.Lex.not_nil_right _ _
  | [], _ :: _ => by
    simp only [charListLt, true_iff]
    exact List.Lex.nil
  | _ :: _, [] => by
    simp only [charListLt, Bool.false_eq_true, false_iff]
    exact List.Lex.not_nil_right _ _
  | a :: as, b :: bs => by
    simp only [charListLt]
    by_cases hab : a < b
    · simp only [hab, if_true, true_iff]
      exact List.Lex.rel hab
    · by_cases hba : b < a
      · simp only [hab, hba, if_false, if_true, Bool.false_eq_true, false_iff]
        intro hlex
        cases hlex with
        | cons h => exact lt_irrefl a hba
        | rel h => exact hab h
      · have heq : a = b := le_antisymm (not_lt.mp hba) (not_lt.mp hab)
        subst heq
        simp only [hab, hba, if_false]
        rw [charListLt_iff as bs]
        exact (List.Lex.cons_iff).symm

theorem strLt_iff (a b : String) : strLt a b = true ↔ a < b := by
  rw [String.lt_iff_toList_lt]
  exact charListLt_iff a.data b.data

/-! ### `sortedKeySet` produces the ascending duplicate-free key enumeration -/

theorem mem_sortedInsert (x a : String) :
    ∀ l : List String, a ∈ sortedInsert x l ↔ a = x ∨ a ∈ l
  | [] => by simp [sortedInsert]
  | y :: ys => by
    simp only [sortedInsert]
    by_cases h1 : strLt x y
    · rw [if_pos h1]
      simp [List.mem_cons]
    · rw [if_neg h1]
      by_cases h2 : x = y
      · subst h2
        rw [if_pos rfl]
        simp only [List.mem_cons]
        tauto
      · rw [if_neg h2]
        simp only [List.mem_cons, mem_sortedInsert x a ys]
        tauto

theorem sorted_sortedInsert (x : String) :
    ∀ l : List String, l.Sorted (· < ·) → (sortedInsert x l).Sorted (· < ·)
  | [] => by simp [sortedInsert]
  | y :: ys => by
    intro hs
    have hs' := List.sorted_cons.mp hs
    simp only [sortedInsert]
    by_cases h1 : strLt x y
    · have hxy : x < y := (strLt_iff x y).mp h1
      rw [if_pos h1, List.sorted_cons]
      refine ⟨?_, hs⟩
      intro b hb
      rcases List.mem_cons.mp hb with rfl | hb
      · exact hxy
      · exact lt_trans hxy (hs'.1 b hb)
    · rw [if_neg h1]
      by_cases h2 : x = y
      · rw [if_pos h2]
        exact hs
      · have hyx : y < x := by
          rcases lt_trichotomy x y with h | h | h
          · exact absurd ((strLt_iff x y).mpr h) h1
          · exact absurd h h2
          · exact h
        rw [if_neg h2, List.sorted_cons]
        constructor
        · intro b hb
          rcases (mem_sortedInsert x b ys).mp hb with rfl | hb
          · exact hyx
          · exact hs'.1 b hb
        · exact sorted_sortedInsert x ys hs'.2

theorem sorted_sortedKeySet : ∀ keys : List String, (sortedKeySet keys).Sorted (· < ·)
  | [] => by simp [sortedKeySet]
  | k :: ks => sorted_sortedInsert k (sortedKeySet ks) (sorted_sortedKeySet ks)

theorem mem_sortedKeySet (a : String) :
    ∀ keys : List String, a ∈ sortedKeySet keys ↔ a ∈ keys
  | [] => by simp [sortedKeySet]
  | k :: ks => by
    simp only [sortedKeySet, List.foldr_cons, List.mem_cons]
    rw [show List.foldr sortedInsert [] ks = sortedKeySet ks from rfl] at *
    rw [mem_sortedInsert, mem_sortedKeySet a ks]

theorem sorted_lt_eq_of_mem_iff : ∀ {l1 l2 : List String},
    l1.Sorted (· < ·) → l2.Sorted (· < ·) → (∀ a, a ∈ l1 ↔ a ∈ l2) → l1 = l2
  | [], [], _, _, _ => rfl
  | [], b :: bs, _, _, hm => absurd ((hm b).mpr (List.mem_cons_self b bs)) (List.not_mem_nil b)
  | a :: as, [], _, _, hm => absurd ((hm a).mp (List.mem_cons_self a as)) (List.not_mem_nil a)
  | a :: as, b :: bs, h1, h2, hm => by
    rw [List.sorted_cons] at h1 h2
    have hab : a = b := by
      by_contra hne
      have ha : a ∈ bs := by
        rcases List.mem_cons.mp ((hm a).mp (List.mem_cons_self a as)) with h | h
        · exact absurd h hne
        · exact h
      have hb : b ∈ as := by
        rcases List.mem_cons.mp ((hm b).mpr (List.mem_cons_self b bs)) with h | h
        · exact absurd h.symm hne
        · exact h
      exact lt_irrefl a (lt_trans (h1.1 b hb) (h2.1 a ha))
    subst hab
    have htail : ∀ x, x ∈ as ↔ x ∈ bs := by
      intro x
      constructor
      · intro hx
        rcases List.mem_cons.mp ((hm x).mp (List.mem_cons.mpr (Or.inr hx))) with h | h
        · exact absurd h (ne_of_gt (h1.1 x hx))
        · exact h
      · intro hx
        rcases List.mem_cons.mp ((hm x).mpr (List.mem_cons.mpr (Or.inr hx))) with h | h
        · exact absurd h (ne_of_gt (h2.1 x hx))
        · exact h
    rw [sorted_lt_eq_of_mem_iff h1.2 h2.2 htail]

theorem nodup_of_sorted_lt {l : List String} (h : l.Sorted (· < ·)) : l.Nodup :=
  h.imp ne_of_lt

/-! ### Lookup and key-set membership -/

theorem lookup_isSome_iff (e : String) (rs : RecordSet) :
    (lookup e rs).isSome = true ↔ e ∈ rs.map Prod.fst := by
  rw [lookup]
  cases hf : rs.find? (fun p => p.1 == e) with
  | none =>
    simp only [Option.map_none', Option.isSome_none, Bool.false_eq_true, false_iff]
    intro hmem
    obtain ⟨p, hp, he⟩ := List.mem_map.mp hmem
    have := List.find?_eq_none.mp hf p hp
    simp [he] at this
  | some p =>
    simp only [Option.map_some', Option.isSome_some, true_iff]
    have hkey : p.1 = e := by simpa using List.find?_some hf
    exact List.mem_map.mpr ⟨p, List.mem_of_find?_eq_some hf, hkey⟩

theorem lookup_eq_some_mem {e : String} {rs : RecordSet} {c : Record}
    (h : lookup e rs = some c) : (e, c) ∈ rs := by
  simp only [lookup, Option.map_eq_some'] at h
  obtain ⟨p, hp, hc⟩ := h
  have hmem := List.mem_of_find?_eq_some hp
  have hkey : p.1 = e := by simpa using List.find?_some hp
  have : p = (e, c) := Prod.ext hkey hc
  rwa [this] at hmem

theorem mem_sortedEmails (e : String) (csv_data airtable_data : RecordSet) :
    e ∈ sortedEmails csv_data airtable_data ↔
      ((lookup e csv_data).isSome = true ∨ (lookup e airtable_data).isSome = true) := by
  rw [sortedEmails, mem_sortedKeySet, List.mem_append,
    lookup_isSome_iff, lookup_isSome_iff]

theorem sorted_sortedEmails (csv_data airtable_data : RecordSet) :
    (sortedEmails csv_data airtable_data).Sorted (· < ·) :=
  sorted_sortedKeySet _

/-! ### The comparison loop against its `mapE` specification -/

theorem compareGo_eq (csv_data airtable_data : RecordSet) :
    ∀ (keys : List String) (acc : List SyncOp),
      compareGo csv_data airtable_data keys acc =
        match mapE (classify csv_data airtable_data) keys with
        | .ok l => .ok (acc ++ l)
        | .error er => .error er
  | [], acc => by simp [compareGo, mapE]
  | e :: rest, acc => by
    cases h : classify csv_data airtable_data e with
    | error er => simp [compareGo, mapE, h]
    | ok op =>
      simp only [compareGo, mapE, h]
      rw [compareGo_eq csv_data airtable_data rest (acc ++ [op])]
      cases mapE (classify csv_data airtable_data) rest with
      | error er => rfl
      | ok bs => simp

theorem compare_datasets_eq (csv_data airtable_data : RecordSet) :
    compare_datasets csv_data airtable_data =
      mapE (classify csv_data airtable_data) (sortedEmails csv_data airtable_data) := by
  rw [compare_datasets, compareGo_eq]
  cases mapE (classify csv_data airtable_data) (sortedEmails csv_data airtable_data) with
  | error er => rfl
  | ok l => simp

theorem mapE_ok_all {α β : Type} {f : α → Except SyncError β} :
    ∀ {l : List α} {res : List β}, mapE f l = .ok res → ∀ a ∈ l, exIsOk (f a) = true
  | [], _, _, a, ha => absurd ha (List.not_mem_nil a)
  | x :: xs, res, h, a, ha => by
    cases hx : f x with
    | error er => simp [mapE, hx] at h
    | ok b =>
      cases hxs : mapE f xs with
      | error er => simp [mapE, hx, hxs] at h
      | ok bs =>
        rcases List.mem_cons.mp ha with rfl | ha'
        · simp [exIsOk, hx]
        · exact mapE_ok_all hxs a ha'

theorem mapE_ok_map {α β : Type} (d : β) {f : α → Except SyncError β} :
    ∀ {l : List α} {res : List β}, mapE f l = .ok res →
      res = l.map (fun a => exOk d (f a))
  | [], res, h => by simpa [mapE] using h.symm
  | x :: xs, res, h => by
    cases hx : f x with
    | error er => simp [mapE, hx] at h
    | ok b =>
      cases hxs : mapE f xs with
      | error er => simp [mapE, hx, hxs] at h
      | ok bs =>
        simp only [mapE, hx, hxs, Except.ok.injEq] at h
        rw [← h, List.map_cons, hx, ← mapE_ok_map d hxs]
        rfl

theorem mapE_ok_of_all {α β : Type} (d : β) {f : α → Except SyncError β} :
    ∀ {l : List α}, (∀ a ∈ l, exIsOk (f a) = true) →
      mapE f l = .ok (l.map (fun a => exOk d (f a)))
  | [], _ => by simp [mapE]
  | x :: xs, hall => by
    have hx := hall x (List.mem_cons_self x xs)
    cases hfx : f x with
    | error er => rw [hfx] at hx; simp [exIsOk] at hx
    | ok b =>
      simp only [mapE, hfx,
        mapE_ok_of_all d (fun a ha => hall a (List.mem_cons.mpr (Or.inr ha)))]
      simp [exOk, hfx]

theorem mapE_error_mem {α β : Type} {f : α → Except SyncError β} :
    ∀ {l : List α} {er : SyncError}, mapE f l = .error er → ∃ a ∈ l, f a = .error er
  | [], er, h => by simp [mapE] at h
  | x :: xs, er, h => by
    cases hx : f x with
    | error er2 =>
      simp only [mapE, hx, Except.error.injEq] at h
      subst h
      exact ⟨x, List.mem_cons_self x xs, hx⟩
    | ok b =>
      cases hxs : mapE f xs with
      | error er2 =>
        simp only [mapE, hx, hxs, Except.error.injEq] at h
        subst h
        obtain ⟨a, ha, hfa⟩ := mapE_error_mem hxs
        exact ⟨a, List.mem_cons.mpr (Or.inr ha), hfa⟩
      | ok bs => simp [mapE, hx, hxs] at h

theorem mapE_not_ok {α β : Type} {f : α → Except SyncError β} {l : List α} {a : α}
    (ha : a ∈ l) (hbad : exIsOk (f a) = false) : ∃ er, mapE f l = .error er := by
  cases hres : mapE f l with
  | error er => exact ⟨er, rfl⟩
  | ok res =>
    have := mapE_ok_all hres a ha
    rw [hbad] at this
    exact absurd this (by simp)

theorem mapE_congr {α β : Type} {f g : α → Except SyncError β} :
    ∀ {l : List α}, (∀ a ∈ l, f a = g a) → mapE f l = mapE g l
  | [], _ => rfl
  | x :: xs, h => by
    simp only [mapE, h x (List.mem_cons_self x xs),
      mapE_congr (fun a ha => h a (List.mem_cons.mpr (Or.inr ha)))]

/-! ### Shapes of `parse_timestamp` and `classify` results -/

theorem parse_timestamp_error {s : String} {er : SyncError}
    (h : parse_timestamp s = .error er) : er = .malformedTimestamp := by
  cases hf : fromisoformat (replaceZ (stripFraction s.data)) with
  | some dt => rw [parse_timestamp, hf] at h; cases h
  | none => rw [parse_timestamp, hf] at h; cases h; rfl

theorem parse_timestamp_not_ok {s : String}
    (h : exIsOk (parse_timestamp s) = false) :
    parse_timestamp s = .error .malformedTimestamp := by
  cases hp : parse_timestamp s with
  | ok dt => rw [hp] at h; simp [exIsOk] at h
  | error er => rw [parse_timestamp_error hp]

theorem classify_create_air {csv_data airtable_data : RecordSet} {e : String} {c : Record}
    (hc : lookup e csv_data = some c) (ha : lookup e airtable_data = none) :
    classify csv_data airtable_data e = .ok ("CREATE", "AIRTABLE", e) := by
  simp [classify, hc, ha]

theorem classify_create_csv {csv_data airtable_data : RecordSet} {e : String} {a : Record}
    (hc : lookup e csv_data = none) (ha : lookup e airtable_data = some a) :
    classify csv_data airtable_data e = .ok ("CREATE", "CSV", e) := by
  simp [classify, hc, ha]

theorem classify_none_none {csv_data airtable_data : RecordSet} {e : String}
    (hc : lookup e csv_data = none) (ha : lookup e airtable_data = none) :
    classify csv_data airtable_data e = .error .keyError := by
  simp [classify, hc, ha]

theorem classify_both_err1 {csv_data airtable_data : RecordSet} {e : String} {c a : Record}
    {er : SyncError}
    (hc : lookup e csv_data = some c) (ha : lookup e airtable_data = some a)
    (hct : parse_timestamp c.updated_at = .error er) :
    classify csv_data airtable_data e = .error er := by
  simp [classify, hc, ha, hct]

theorem classify_both_err2 {csv_data airtable_data : RecordSet} {e : String} {c a : Record}
    {ct : DT} {er : SyncError}
    (hc : lookup e csv_data = some c) (ha : lookup e airtable_data = some a)
    (hct : parse_timestamp c.updated_at = .ok ct)
    (hat : parse_timestamp a.updated_at = .error er) :
    classify csv_data airtable_data e = .error er := by
  simp [classify, hc, ha, hct, hat]

theorem classify_both_parsed {csv_data airtable_data : RecordSet} {e : String} {c a : Record}
    {ct at_ : DT}
    (hc : lookup e csv_data = some c) (ha : lookup e airtable_data = some a)
    (hct : parse_timestamp c.updated_at = .ok ct)
    (hat : parse_timestamp a.updated_at = .ok at_) :
    classify csv_data airtable_data e =
      (if dtEq ct at_ then .ok ("NONE", "", e)
       else
         match dtGt ct at_ with
         | .error er => .error er
         | .ok g =>
           .ok (if g then ("UPDATE", "AIRTABLE", e)
                else ("UPDATE", "CSV", e))) := by
  simp [classify, hc, ha, hct, hat]

theorem classify_both_ok {csv_data airtable_data : RecordSet} {e : String} {c a : Record}
    {ct at_ : DT}
    (hc : lookup e csv_data = some c) (ha : lookup e airtable_data = some a)
    (hct : parse_timestamp c.updated_at = .ok ct)
    (hat : parse_timestamp a.updated_at = .ok at_)
    (hcmp : dtComparable ct at_ = true) :
    classify csv_data airtable_data e =
      .ok (if toTimeline ct = toTimeline at_ then ("NONE", "", e)
           else if toTimeline at_ < toTimeline ct then ("UPDATE", "AIRTABLE", e)
           else ("UPDATE", "CSV", e)) := by
  rw [classify_both_parsed hc ha hct hat]
  by_cases heq : toTimeline ct = toTimeline at_
  · simp [dtEq, hcmp, heq]
  · by_cases hgt : toTimeline at_ < toTimeline ct
    · simp [dtEq, dtGt, hcmp, heq, hgt]
    · simp [dtEq, dtGt, hcmp, heq, hgt]

theorem classify_both_incomparable {csv_data airtable_data : RecordSet} {e : String}
    {c a : Record} {ct at_ : DT}
    (hc : lookup e csv_data = some c) (ha : lookup e airtable_data = some a)
    (hct : parse_timestamp c.updated_at = .ok ct)
    (hat : parse_timestamp a.updated_at = .ok at_)
    (hcmp : dtComparable ct at_ = false) :
    classify csv_data airtable_data e = .error .typeError := by
  rw [classify_both_parsed hc ha hct hat]
  simp [dtEq, dtGt, hcmp]

theorem classify_email {csv_data airtable_data : RecordSet} {e : String} {r : SyncOp}
    (h : classify csv_data airtable_data e = .ok r) : r.2.2 = e := by
  cases hc : lookup e csv_data with
  | none =>
    cases ha : lookup e airtable_data with
    | none => rw [classify_none_none hc ha] at h; cases h
    | some a => rw [classify_create_csv hc ha] at h; cases h; rfl
  | some c =>
    cases ha : lookup e airtable_data with
    | none => rw [classify_create_air hc ha] at h; cases h; rfl
    | some a =>
      cases hct : parse_timestamp c.updated_at with
      | error er => rw [classify_both_err1 hc ha hct] at h; cases h
      | ok ct =>
        cases hat : parse_timestamp a.updated_at with
        | error er => rw [classify_both_err2 hc ha hct hat] at h; cases h
        | ok at_ =>
          rw [classify_both_parsed hc ha hct hat] at h
          by_cases heq : dtEq ct at_
          · rw [if_pos heq] at h; cases h; rfl
          · rw [if_neg heq] at h
            cases hgt : dtGt ct at_ with
            | error er => rw [hgt] at h; cases h
            | ok g =>
              rw [hgt] at h
              cases h
              cases g <;> rfl

theorem classify_both_kind {csv_data airtable_data : RecordSet} {e : String} {c a : Record}
    {r : SyncOp}
    (hc : lookup e csv_data = some c) (ha : lookup e airtable_data = some a)
    (h : classify csv_data airtable_data e = .ok r) :
    r.1 = "NONE" ∨ r.1 = "UPDATE" := by
  cases hct : parse_timestamp c.updated_at with
  | error er => rw [classify_both_err1 hc ha hct] at h; cases h
  | ok ct =>
    cases hat : parse_timestamp a.updated_at with
    | error er => rw [classify_both_err2 hc ha hct hat] at h; cases h
    | ok at_ =>
      rw [classify_both_parsed hc ha hct hat] at h
      by_cases heq : dtEq ct at_
      · rw [if_pos heq] at h; cases h; exact Or.inl rfl
      · rw [if_neg heq] at h
        cases hgt : dtGt ct at_ with
        | error er => rw [hgt] at h; cases h
        | ok g =>
          rw [hgt] at h
          cases h
          cases g <;> exact Or.inr rfl

theorem classify_create_target {csv_data airtable_data : RecordSet} {e : String} {r : SyncOp}
    (h : classify csv_data airtable_data e = .ok r) :
    ((r.1 == "CREATE" && r.2.1 == "AIRTABLE") = true ↔
      ((lookup e csv_data).isSome = true ∧ (lookup e airtable_data).isSome = false)) ∧
    ((r.1 == "CREATE" && r.2.1 == "CSV") = true ↔
      ((lookup e csv_data).isSome = false ∧ (lookup e airtable_data).isSome = true)) := by
  cases hc : lookup e csv_data with
  | none =>
    cases ha : lookup e airtable_data with
    | none => rw [classify_none_none hc ha] at h; cases h
    | some a =>
      rw [classify_create_csv hc ha] at h
      cases h
      simp [hc, ha]
  | some c =>
    cases ha : lookup e airtable_data with
    | none =>
      rw [classify_create_air hc ha] at h
      cases h
      simp [hc, ha]
    | some a =>
      rcases classify_both_kind hc ha h with hk | hk <;>
        simp [hc, ha, hk]

theorem classify_error_shape {csv_data airtable_data : RecordSet} {e : String}
    {er : SyncError}
    (hmem : (lookup e csv_data).isSome = true ∨ (lookup e airtable_data).isSome = true)
    (hcomp : ∀ c a, lookup e csv_data = some c → lookup e airtable_data = some a →
      parsedCompatible (parse_timestamp c.updated_at) (parse_timestamp a.updated_at) = true)
    (h : classify csv_data airtable_data e = .error er) :
    er = .malformedTimestamp := by
  cases hc : lookup e csv_data with
  | none =>
    cases ha : lookup e airtable_data with
    | none => rw [hc, ha] at hmem; simp at hmem
    | some a => rw [classify_create_csv hc ha] at h; cases h
  | some c =>
    cases ha : lookup e airtable_data with
    | none => rw [classify_create_air hc ha] at h; cases h
    | some a =>
      cases hct : parse_timestamp c.updated_at with
      | error er2 =>
        rw [classify_both_err1 hc ha hct] at h
        cases h
        exact parse_timestamp_error hct
      | ok ct =>
        cases hat : parse_timestamp a.updated_at with
        | error er2 =>
          rw [classify_both_err2 hc ha hct hat] at h
          cases h
          exact parse_timestamp_error hat
        | ok at_ =>
          rw [classify_both_parsed hc ha hct hat] at h
          have hcmp : dtComparable ct at_ = true := by
            have := hcomp c a hc ha
            rw [hct, hat] at this
            simpa [parsedCompatible] using this
          by_cases heq : dtEq ct at_
          · rw [if_pos heq] at h; cases h
          · rw [if_neg heq] at h
            rw [dtGt, if_pos hcmp] at h
            cases h

/-! ### Iteration-order independence -/

theorem lookup_cons (e : String) (p : String × Record) (rs : RecordSet) :
    lookup e (p :: rs) = if p.1 == e then some p.2 else lookup e rs := by
  simp only [lookup, List.find?]
  cases h : (p.1 == e) <;> simp [h]

theorem lookup_perm {rs rs' : RecordSet} (hperm : rs.Perm rs')
    (hnd : (rs.map Prod.fst).Nodup) : ∀ e : String, lookup e rs' = lookup e rs := by
  induction hperm with
  | nil => intro e; rfl
  | cons x hp ih =>
    intro e
    rw [List.map_cons, List.nodup_cons] at hnd
    rw [lookup_cons, lookup_cons, ih hnd.2 e]
  | swap x y l =>
    intro e
    rw [List.map_cons, List.map_cons, List.nodup_cons, List.nodup_cons] at hnd
    have hxy : y.1 ≠ x.1 := by
      intro h
      exact hnd.1 (h ▸ List.mem_cons_self x.1 (l.map Prod.fst))
    rw [lookup_cons, lookup_cons, lookup_cons, lookup_cons]
    cases hx : (x.1 == e) with
    | false => simp
    | true =>
      cases hy : (y.1 == e) with
      | false => simp
      | true =>
        exact absurd (eq_of_beq hy |>.trans (eq_of_beq hx).symm) hxy
  | trans h12 h23 ih12 ih23 =>
    intro e
    have hnd2 : _ := ((h12.map Prod.fst).nodup_iff).mp hnd
    rw [ih23 hnd2 e, ih12 hnd e]

theorem sortedEmails_perm {csv_data csv' airtable_data air' : RecordSet}
    (h1 : csv_data.Perm csv') (h2 : airtable_data.Perm air') :
    sortedEmails csv' air' = sortedEmails csv_data airtable_data := by
  apply sorted_lt_eq_of_mem_iff (sorted_sortedEmails _ _) (sorted_sortedEmails _ _)
  intro a
  rw [sortedEmails, sortedEmails, mem_sortedKeySet, mem_sortedKeySet]
  exact ((h1.map Prod.fst).append (h2.map Prod.fst)).symm.mem_iff

theorem classify_congr {csv_data csv' airtable_data air' : RecordSet} {e : String}
    (hc : lookup e csv' = lookup e csv_data) (ha : lookup e air' = lookup e airtable_data) :
    classify csv' air' e = classify csv_data airtable_data e := by
  simp only [classify, hc, ha]

theorem compare_datasets_perm {csv_data csv' airtable_data air' : RecordSet}
    (h1 : csv_data.Perm csv') (h2 : airtable_data.Perm air')
    (hnc : (csv_data.map Prod.fst).Nodup) (hna : (airtable_data.map Prod.fst).Nodup) :
    compare_datasets csv' air' = compare_datasets csv_data airtable_data := by
  rw [compare_datasets_eq, compare_datasets_eq, sortedEmails_perm h1 h2]
  exact mapE_congr (fun e _ =>
    classify_congr (lookup_perm h1 hnc e) (lookup_perm h2 hna e))

/-! ### Filtering the result list -/

/-- Python's `results.append` never runs for a key outside the union, so a
default needed only to state the success projection. -/
def opDefault : SyncOp := ("NONE", "", "")

theorem filter_beq_nil {l : List String} {e : String} (he : e ∉ l) :
    l.filter (fun x => x == e) = [] := by
  induction l with
  | nil => rfl
  | cons a t ih =>
    have hae : (a == e) = false := by
      simp only [beq_eq_false_iff_ne]
      intro h
      exact he (h ▸ List.mem_cons_self a t)
    simp [List.filter_cons, hae, ih (fun h => he (List.mem_cons.mpr (Or.inr h)))]

theorem filter_beq_singleton {l : List String} {e : String} (hnd : l.Nodup)
    (he : e ∈ l) : l.filter (fun x => x == e) = [e] := by
  induction l with
  | nil => exact absurd he (List.not_mem_nil e)
  | cons a t ih =>
    rw [List.nodup_cons] at hnd
    rcases List.mem_cons.mp he with rfl | het
    · rw [List.filter_cons]
      simp only [beq_self_eq_true, if_pos]
      rw [filter_beq_nil hnd.1]
    · have hae : (a == e) = false := by
        simp only [beq_eq_false_iff_ne]
        intro h
        exact hnd.1 (h ▸ het)
      simp [List.filter_cons, hae, ih hnd.2 het]

/-! ### The state-passing loop neither mutates the inputs nor produces more
than its result -/

theorem compareGoSt_eq : ∀ (keys : List String) (acc : List SyncOp) (st : SyncState),
    compareGoSt keys acc st = (compareGo st.csv_data st.airtable_data keys acc, st)
  | [], _, _ => rfl
  | e :: rest, acc, st => by
    simp only [compareGoSt, compareGo]
    cases classify st.csv_data st.airtable_data e with
    | error er => rfl
    | ok op => exact compareGoSt_eq rest (acc ++ [op]) st

/-- On a successful run, the tuples whose email field is `e` are exactly the
one tuple `classify` produced for `e`. -/
theorem res_filter_email {csv_data airtable_data : RecordSet} {e : String}
    (hall : ∀ a ∈ sortedEmails csv_data airtable_data,
      exIsOk (classify csv_data airtable_data a) = true)
    (hmem : e ∈ sortedEmails csv_data airtable_data) :
    ((sortedEmails csv_data airtable_data).map
        (fun k => exOk opDefault (classify csv_data airtable_data k))).filter
      (fun r => r.2.2 == e) =
    [exOk opDefault (classify csv_data airtable_data e)] := by
  rw [List.filter_map]
  have hfc : (sortedEmails csv_data airtable_data).filter
        ((fun r => r.2.2 == e) ∘ (fun k => exOk opDefault (classify csv_data airtable_data k)))
      = (sortedEmails csv_data airtable_data).filter (fun k => k == e) := by
    apply List.filter_congr
    intro k hk
    have hok := hall k hk
    cases hcl : classify csv_data airtable_data k with
    | error er => rw [hcl] at hok; simp [exIsOk] at hok
    | ok r =>
      have h3 := classify_email hcl
      simp [Function.comp, hcl, exOk, h3]
  rw [hfc, filter_beq_singleton (nodup_of_sorted_lt (sorted_sortedEmails _ _)) hmem,
    List.map_cons, List.map_nil]

/-! ## The claims -/

/-- C1 (amended): for every email present in both record sets with both
`updated_at` values parseable, whenever `compare_datasets` returns a result
at all, that result holds exactly one tuple for the email: `(NONE, "", e)`
when the two normalized instants are equal (a tie never produces UPDATE in
either direction), `(UPDATE, AIRTABLE, e)` when the local (CSV) instant is
strictly greater, and `(UPDATE, CSV, e)` when the remote (Airtable) instant
is strictly greater — the UPDATE targets the side holding the strictly older
instant. -/
theorem c1_shared_key_classification (csv_data airtable_data : RecordSet)
    (res : List SyncOp) (e : String) (c a : Record) (ct at_ : DT)
    (hres : compare_datasets csv_data airtable_data = .ok res)
    (hc : lookup e csv_data = some c) (ha : lookup e airtable_data = some a)
    (hct : parse_timestamp c.updated_at = .ok ct)
    (hat : parse_timestamp a.updated_at = .ok at_) :
    res.filter (fun r => r.2.2 == e) =
      [if toTimeline ct = toTimeline at_ then ("NONE", "", e)
       else if toTimeline at_ < toTimeline ct then ("UPDATE", "AIRTABLE", e)
       else ("UPDATE", "CSV", e)] := by
  rw [compare_datasets_eq] at hres
  have hall := mapE_ok_all hres
  have hmap := mapE_ok_map opDefault hres
  have hmem : e ∈ sortedEmails csv_data airtable_data := by
    rw [mem_sortedEmails]
    exact Or.inl (by rw [hc]; rfl)
  have hcmp : dtComparable ct at_ = true := by
    by_contra hx
    have hx' : dtComparable ct at_ = false := by simpa using hx
    have hok := hall e hmem
    rw [classify_both_incomparable hc ha hct hat hx'] at hok
    simp [exIsOk] at hok
  subst hmap
  rw [res_filter_email hall hmem, classify_both_ok hc ha hct hat hcmp]
  rfl

/-- C1 witness: a concrete successful tie run, classified as exactly one
NONE tuple. -/
theorem c1_witness :
    compare_datasets [("a@x.com", ⟨"Ann", "A", "2024-05-05T10:00:00Z"⟩)]
        [("a@x.com", ⟨"Bea", "B", "2024-05-05T10:00:00Z"⟩)] =
      .ok [("NONE", "", "a@x.com")] ∧
    List.filter (fun r => r.2.2 == "a@x.com") [("NONE", "", "a@x.com")] =
      [if toTimeline ⟨2024, 5, 5, 10, 0, 0, 0, some 0⟩ =
          toTimeline ⟨2024, 5, 5, 10, 0, 0, 0, some 0⟩ then ("NONE", "", "a@x.com")
       else if toTimeline ⟨2024, 5, 5, 10, 0, 0, 0, some 0⟩ <
          toTimeline ⟨2024, 5, 5, 10, 0, 0, 0, some 0⟩ then ("UPDATE", "AIRTABLE", "a@x.com")
       else ("UPDATE", "CSV", "a@x.com")] :=
  ⟨by decide,
   c1_shared_key_classification
     [("a@x.com", ⟨"Ann", "A", "2024-05-05T10:00:00Z"⟩)]
     [("a@x.com", ⟨"Bea", "B", "2024-05-05T10:00:00Z"⟩)]
     [("NONE", "", "a@x.com")] "a@x.com"
     ⟨"Ann", "A", "2024-05-05T10:00:00Z"⟩ ⟨"Bea", "B", "2024-05-05T10:00:00Z"⟩
     ⟨2024, 5, 5, 10, 0, 0, 0, some 0⟩ ⟨2024, 5, 5, 10, 0, 0, 0, some 0⟩
     (by decide) (by decide) (by decide) (by decide) (by decide)⟩

/-- C1 counterexample: an email present in both sets with both timestamps
parseable (one offset-naive, one offset-aware) on which `compare_datasets`
raises `TypeError` and emits no tuple at all, so the claim as stated — that
parseability alone guarantees exactly one emitted tuple — is false. -/
theorem c1_counterexample :
    exIsOk (parse_timestamp "2024-01-01T10:00:00") = true ∧
    exIsOk (parse_timestamp "2024-01-01T11:00:00Z") = true ∧
    compare_datasets [("a@x.com", ⟨"Ann", "A", "2024-01-01T10:00:00"⟩)]
        [("a@x.com", ⟨"Bea", "B", "2024-01-01T11:00:00Z"⟩)] = .error .typeError := by
  decide

/-- C2 (amended): whenever `compare_datasets` returns a result, every email
present only in the local (CSV) set contributes exactly one
`(CREATE, AIRTABLE, email)` tuple and every email present only in the remote
(Airtable) set exactly one `(CREATE, CSV, email)` tuple — the side missing
the record is the target — and the result holds exactly `|A|` CREATE→AIRTABLE
rows and `|B|` CREATE→CSV rows, `A` and `B` being the sets of keys present
only locally resp. only remotely, with no other rows for those keys. -/
theorem c2_create_direction (csv_data airtable_data : RecordSet) (res : List SyncOp)
    (hres : compare_datasets csv_data airtable_data = .ok res) :
    (∀ e c, lookup e csv_data = some c → lookup e airtable_data = none →
      res.filter (fun r => r.2.2 == e) = [("CREATE", "AIRTABLE", e)]) ∧
    (∀ e a, lookup e csv_data = none → lookup e airtable_data = some a →
      res.filter (fun r => r.2.2 == e) = [("CREATE", "CSV", e)]) ∧
    (res.filter (fun r => r.1 == "CREATE" && r.2.1 == "AIRTABLE")).length =
      ((sortedKeySet (csv_data.map Prod.fst)).filter
        (fun e => !(lookup e airtable_data).isSome)).length ∧
    (res.filter (fun r => r.1 == "CREATE" && r.2.1 == "CSV")).length =
      ((sortedKeySet (airtable_data.map Prod.fst)).filter
        (fun e => !(lookup e csv_data).isSome)).length := by
  rw [compare_datasets_eq] at hres
  have hall := mapE_ok_all hres
  have hmap := mapE_ok_map opDefault hres
  subst hmap
  refine ⟨?_, ?_, ?_, ?_⟩
  · intro e c hc ha
    have hmem : e ∈ sortedEmails csv_data airtable_data :=
      (mem_sortedEmails e _ _).mpr (Or.inl (by rw [hc]; rfl))
    rw [res_filter_email hall hmem, classify_create_air hc ha]
    rfl
  · intro e a hc ha
    have hmem : e ∈ sortedEmails csv_data airtable_data :=
      (mem_sortedEmails e _ _).mpr (Or.inr (by rw [ha]; rfl))
    rw [res_filter_email hall hmem, classify_create_csv hc ha]
    rfl
  · rw [List.filter_map, List.length_map]
    have h1 : (sortedEmails csv_data airtable_data).filter
          ((fun r => r.1 == "CREATE" && r.2.1 == "AIRTABLE") ∘
            (fun k => exOk opDefault (classify csv_data airtable_data k)))
        = (sortedEmails csv_data airtable_data).filter
            (fun k => (lookup k csv_data).isSome && !(lookup k airtable_data).isSome) := by
      apply List.filter_congr
      intro k hk
      have hok := hall k hk
      cases hcl : classify csv_data airtable_data k with
      | error er => rw [hcl] at hok; simp [exIsOk] at hok
      | ok r =>
        have htarget := (classify_create_target hcl).1
        simp only [Function.comp, hcl, exOk]
        apply Bool.eq_iff_iff.mpr
        simp only [Bool.and_eq_true, Bool.not_eq_true']
        rw [Bool.and_eq_true] at htarget
        exact htarget
    rw [h1]
    have h2 : (sortedEmails csv_data airtable_data).filter
          (fun k => (lookup k csv_data).isSome && !(lookup k airtable_data).isSome)
        = (sortedKeySet (csv_data.map Prod.fst)).filter
            (fun e => !(lookup e airtable_data).isSome) := by
      apply sorted_lt_eq_of_mem_iff
      · exact (sorted_sortedEmails _ _).filter _
      · exact (sorted_sortedKeySet _).filter _
      · intro x
        rw [List.mem_filter, List.mem_filter, mem_sortedEmails, mem_sortedKeySet,
          ← lookup_isSome_iff]
        simp only [Bool.and_eq_true, Bool.not_eq_true']
        constructor
        · rintro ⟨_, h3, h4⟩
          exact ⟨h3, h4⟩
        · rintro ⟨h3, h4⟩
          exact ⟨Or.inl h3, h3, h4⟩
    rw [h2]
  · rw [List.filter_map, List.length_map]
    have h1 : (sortedEmails csv_data airtable_data).filter
          ((fun r => r.1 == "CREATE" && r.2.1 == "CSV") ∘
            (fun k => exOk opDefault (classify csv_data airtable_data k)))
        = (sortedEmails csv_data airtable_data).filter
            (fun k => !(lookup k csv_data).isSome && (lookup k airtable_data).isSome) := by
      apply List.filter_congr
      intro k hk
      have hok := hall k hk
      cases hcl : classify csv_data airtable_data k with
      | error er => rw [hcl] at hok; simp [exIsOk] at hok
      | ok r =>
        have htarget := (classify_create_target hcl).2
        simp only [Function.comp, hcl, exOk]
        apply Bool.eq_iff_iff.mpr
        simp only [Bool.and_eq_true, Bool.not_eq_true']
        rw [Bool.and_eq_true] at htarget
        exact htarget
    rw [h1]
    have h2 : (sortedEmails csv_data airtable_data).filter
          (fun k => !(lookup k csv_data).isSome && (lookup k airtable_data).isSome)
        = (sortedKeySet (airtable_data.map Prod.fst)).filter
            (fun e => !(lookup e csv_data).isSome) := by
      apply sorted_lt_eq_of_mem_iff
      · exact (sorted_sortedEmails _ _).filter _
      · exact (sorted_sortedKeySet _).filter _
      · intro x
        rw [List.mem_filter, List.mem_filter, mem_sortedEmails, mem_sortedKeySet,
          ← lookup_isSome_iff]
        simp only [Bool.and_eq_true, Bool.not_eq_true']
        constructor
        · rintro ⟨_, h3, h4⟩
          exact ⟨h4, h3⟩
        · rintro ⟨h3, h4⟩
          exact ⟨Or.inr h3, h4, h3⟩
    rw [h2]

/-- C2 witness: one local-only and one remote-only key, with the clauses of
the theorem instantiated at them. -/
theorem c2_witness :
    compare_datasets [("a@x.com", ⟨"Ann", "A", "2024-03-03T00:00:00Z"⟩)]
        [("b@x.com", ⟨"Bea", "B", "2024-03-04T00:00:00Z"⟩)] =
      .ok [("CREATE", "AIRTABLE", "a@x.com"), ("CREATE", "CSV", "b@x.com")] ∧
    ([("CREATE", "AIRTABLE", "a@x.com"), ("CREATE", "CSV", "b@x.com")] : List SyncOp).filter
        (fun r => r.2.2 == "a@x.com") = [("CREATE", "AIRTABLE", "a@x.com")] ∧
    ([("CREATE", "AIRTABLE", "a@x.com"), ("CREATE", "CSV", "b@x.com")] : List SyncOp).filter
        (fun r => r.2.2 == "b@x.com") = [("CREATE", "CSV", "b@x.com")] ∧
    (([("CREATE", "AIRTABLE", "a@x.com"), ("CREATE", "CSV", "b@x.com")] : List SyncOp).filter
        (fun r => r.1 == "CREATE" && r.2.1 == "AIRTABLE")).length =
      ((sortedKeySet ([("a@x.com", (⟨"Ann", "A", "2024-03-03T00:00:00Z"⟩ : Record))].map
          Prod.fst)).filter
        (fun e => !(lookup e [("b@x.com", ⟨"Bea", "B", "2024-03-04T00:00:00Z"⟩)]).isSome)).length :=
  ⟨by decide,
   (c2_create_direction [("a@x.com", ⟨"Ann", "A", "2024-03-03T00:00:00Z"⟩)]
      [("b@x.com", ⟨"Bea", "B", "2024-03-04T00:00:00Z"⟩)]
      [("CREATE", "AIRTABLE", "a@x.com"), ("CREATE", "CSV", "b@x.com")] (by decide)).1
     "a@x.com" ⟨"Ann", "A", "2024-03-03T00:00:00Z"⟩ (by decide) (by decide),
   (c2_create_direction [("a@x.com", ⟨"Ann", "A", "2024-03-03T00:00:00Z"⟩)]
      [("b@x.com", ⟨"Bea", "B", "2024-03-04T00:00:00Z"⟩)]
      [("CREATE", "AIRTABLE", "a@x.com"), ("CREATE", "CSV", "b@x.com")] (by decide)).2.1
     "b@x.com" ⟨"Bea", "B", "2024-03-04T00:00:00Z"⟩ (by decide) (by decide),
   (c2_create_direction [("a@x.com", ⟨"Ann", "A", "2024-03-03T00:00:00Z"⟩)]
      [("b@x.com", ⟨"Bea", "B", "2024-03-04T00:00:00Z"⟩)]
      [("CREATE", "AIRTABLE", "a@x.com"), ("CREATE", "CSV", "b@x.com")] (by decide)).2.2.1⟩

/-- C2 counterexample: `a@x.com` is present only locally, yet a malformed
timestamp on the unrelated shared key `b@x.com` aborts the run, so no
`(CREATE, AIRTABLE, a@x.com)` tuple is ever produced — the claim as stated,
with no proviso that the run returns a result, is false. -/
theorem c2_counterexample :
    (lookup "a@x.com" [("a@x.com", (⟨"Ann", "A", "2024-01-02T00:00:00Z"⟩ : Record)),
        ("b@x.com", ⟨"Bob", "B", "not-a-date"⟩)]).isSome = true ∧
    (lookup "a@x.com" [("b@x.com", (⟨"Bea", "B", "not-a-date"⟩ : Record))]).isSome = false ∧
    compare_datasets
        [("a@x.com", ⟨"Ann", "A", "2024-01-02T00:00:00Z"⟩),
         ("b@x.com", ⟨"Bob", "B", "not-a-date"⟩)]
        [("b@x.com", ⟨"Bea", "B", "not-a-date"⟩)] = .error .malformedTimestamp := by
  decide

/-- C3 (amended): for record sets with pairwise-distinct keys, all timestamps
parseable AND every shared key's two parsed instants mutually comparable,
`compare_datasets` returns a result holding exactly one tuple per email of
the key union, with the emails of successive tuples strictly ascending
lexicographically, and the result is identical for any reordering of either
input mapping. -/
theorem c3_sorted_deterministic (csv_data airtable_data csv' air' : RecordSet)
    (hnc : (csv_data.map Prod.fst).Nodup) (hna : (airtable_data.map Prod.fst).Nodup)
    (hp1 : csv_data.Perm csv') (hp2 : airtable_data.Perm air')
    (hparse : ∀ p ∈ csv_data ++ airtable_data,
      exIsOk (parse_timestamp p.2.updated_at) = true)
    (hcomp : ∀ p ∈ csv_data, ∀ q ∈ airtable_data, p.1 = q.1 →
      parsedCompatible (parse_timestamp p.2.updated_at)
        (parse_timestamp q.2.updated_at) = true) :
    ∃ res, compare_datasets csv_data airtable_data = .ok res ∧
      res.map (fun r => r.2.2) = sortedEmails csv_data airtable_data ∧
      (res.map (fun r => r.2.2)).Sorted (· < ·) ∧
      (∀ e, e ∈ res.map (fun r => r.2.2) ↔
        ((lookup e csv_data).isSome = true ∨ (lookup e airtable_data).isSome = true)) ∧
      compare_datasets csv' air' = compare_datasets csv_data airtable_data := by
  have hall : ∀ k ∈ sortedEmails csv_data airtable_data,
      exIsOk (classify csv_data airtable_data k) = true := by
    intro k hk
    cases hc : lookup k csv_data with
    | some c =>
      cases ha : lookup k airtable_data with
      | none => rw [classify_create_air hc ha]; rfl
      | some a =>
        have hpc : exIsOk (parse_timestamp c.updated_at) = true :=
          hparse (k, c) (List.mem_append.mpr (Or.inl (lookup_eq_some_mem hc)))
        have hpa : exIsOk (parse_timestamp a.updated_at) = true :=
          hparse (k, a) (List.mem_append.mpr (Or.inr (lookup_eq_some_mem ha)))
        cases hct : parse_timestamp c.updated_at with
        | error er => rw [hct] at hpc; simp [exIsOk] at hpc
        | ok ct =>
          cases hat : parse_timestamp a.updated_at with
          | error er => rw [hat] at hpa; simp [exIsOk] at hpa
          | ok at_ =>
            have hcm := hcomp (k, c) (lookup_eq_some_mem hc) (k, a)
              (lookup_eq_some_mem ha) rfl
            rw [hct, hat] at hcm
            have hcm' : dtComparable ct at_ = true := by
              simpa [parsedCompatible] using hcm
            rw [classify_both_ok hc ha hct hat hcm']
            rfl
    | none =>
      cases ha : lookup k airtable_data with
      | some a => rw [classify_create_csv hc ha]; rfl
      | none =>
        rw [mem_sortedEmails] at hk
        rcases hk with h | h
        · rw [hc] at h; simp at h
        · rw [ha] at h; simp at h
  have hmap3 : ((sortedEmails csv_data airtable_data).map
        (fun k => exOk opDefault (classify csv_data airtable_data k))).map
      (fun r => r.2.2) = sortedEmails csv_data airtable_data := by
    rw [List.map_map]
    have hpt : ∀ k ∈ sortedEmails csv_data airtable_data,
        ((fun r => r.2.2) ∘
          (fun k => exOk opDefault (classify csv_data airtable_data k))) k = id k := by
      intro k hk
      have hok := hall k hk
      cases hcl : classify csv_data airtable_data k with
      | error er => rw [hcl] at hok; simp [exIsOk] at hok
      | ok r => simp [Function.comp, hcl, exOk, classify_email hcl]
    rw [List.map_congr_left hpt, List.map_id]
  refine ⟨(sortedEmails csv_data airtable_data).map
      (fun k => exOk opDefault (classify csv_data airtable_data k)), ?_, hmap3, ?_, ?_, ?_⟩
  · rw [compare_datasets_eq]
    exact mapE_ok_of_all opDefault hall
  · rw [hmap3]
    exact sorted_sortedEmails _ _
  · intro e
    rw [hmap3, mem_sortedEmails]
  · exact compare_datasets_perm hp1 hp2 hnc hna

/-- C3 witness: a two-key CSV side given in descending key order together
with a reordered copy; the hypotheses hold by computation. -/
theorem c3_witness :
    ∃ res, compare_datasets
        [("b@x.com", ⟨"Bob", "B", "2024-01-02T00:00:00Z"⟩),
         ("a@x.com", ⟨"Ann", "A", "2024-01-01T00:00:00Z"⟩)]
        [("a@x.com", ⟨"Ada", "C", "2024-01-01T00:00:00Z"⟩)] = .ok res ∧
      res.map (fun r => r.2.2) = sortedEmails
        [("b@x.com", ⟨"Bob", "B", "2024-01-02T00:00:00Z"⟩),
         ("a@x.com", ⟨"Ann", "A", "2024-01-01T00:00:00Z"⟩)]
        [("a@x.com", ⟨"Ada", "C", "2024-01-01T00:00:00Z"⟩)] ∧
      (res.map (fun r => r.2.2)).Sorted (· < ·) ∧
      (∀ e, e ∈ res.map (fun r => r.2.2) ↔
        ((lookup e [("b@x.com", ⟨"Bob", "B", "2024-01-02T00:00:00Z"⟩),
            ("a@x.com", ⟨"Ann", "A", "2024-01-01T00:00:00Z"⟩)]).isSome = true ∨
         (lookup e [("a@x.com", ⟨"Ada", "C", "2024-01-01T00:00:00Z"⟩)]).isSome = true)) ∧
      compare_datasets
        [("a@x.com", ⟨"Ann", "A", "2024-01-01T00:00:00Z"⟩),
         ("b@x.com", ⟨"Bob", "B", "2024-01-02T00:00:00Z"⟩)]
        [("a@x.com", ⟨"Ada", "C", "2024-01-01T00:00:00Z"⟩)] =
      compare_datasets
        [("b@x.com", ⟨"Bob", "B", "2024-01-02T00:00:00Z"⟩),
         ("a@x.com", ⟨"Ann", "A", "2024-01-01T00:00:00Z"⟩)]
        [("a@x.com", ⟨"Ada", "C", "2024-01-01T00:00:00Z"⟩)] :=
  c3_sorted_deterministic
    [("b@x.com", ⟨"Bob", "B", "2024-01-02T00:00:00Z"⟩),
     ("a@x.com", ⟨"Ann", "A", "2024-01-01T00:00:00Z"⟩)]
    [("a@x.com", ⟨"Ada", "C", "2024-01-01T00:00:00Z"⟩)]
    [("a@x.com", ⟨"Ann", "A", "2024-01-01T00:00:00Z"⟩),
     ("b@x.com", ⟨"Bob", "B", "2024-01-02T00:00:00Z"⟩)]
    [("a@x.com", ⟨"Ada", "C", "2024-01-01T00:00:00Z"⟩)]
    (by decide) (by decide) (by decide) (by decide) (by decide) (by decide)

/-- C3 counterexample: all timestamps in both record sets are parseable, yet
`compare_datasets` returns no output sequence at all (the shared key mixes an
offset-naive and an offset-aware instant and raises `TypeError`), so the
claim as stated — parseability alone guarantees one tuple per union email —
is false. -/
theorem c3_counterexample :
    exIsOk (parse_timestamp "2024-06-01T12:00:00") = true ∧
    exIsOk (parse_timestamp "2024-06-01T12:30:00Z") = true ∧
    compare_datasets [("a@x.com", ⟨"Ann", "A", "2024-06-01T12:00:00"⟩)]
        [("a@x.com", ⟨"Bea", "B", "2024-06-01T12:30:00Z"⟩)] = .error .typeError := by
  decide

/-- C4 (amended): when some email present in both sides has an `updated_at`
string that `parse_timestamp` cannot parse, `compare_datasets` fails the
whole run and returns no result at all — it never silently classifies that
key as NONE or CREATE and never emits a partial output sequence; the error is
`MalformedTimestamp` provided every shared key whose two timestamps both
parse has mutually comparable instants (otherwise an earlier aware/naive pair
may raise `TypeError` first). -/
theorem c4_malformed_aborts (csv_data airtable_data : RecordSet) (e : String) (c a : Record)
    (hc : lookup e csv_data = some c) (ha : lookup e airtable_data = some a)
    (hbad : exIsOk (parse_timestamp c.updated_at) = false ∨
      exIsOk (parse_timestamp a.updated_at) = false) :
    (∃ er, compare_datasets csv_data airtable_data = .error er) ∧
    ((∀ p ∈ csv_data, ∀ q ∈ airtable_data, p.1 = q.1 →
        parsedCompatible (parse_timestamp p.2.updated_at)
          (parse_timestamp q.2.updated_at) = true) →
      compare_datasets csv_data airtable_data = .error .malformedTimestamp) := by
  have hmem : e ∈ sortedEmails csv_data airtable_data :=
    (mem_sortedEmails e _ _).mpr (Or.inl (by rw [hc]; rfl))
  have hcls : classify csv_data airtable_data e = .error .malformedTimestamp := by
    rcases hbad with hb | hb
    · exact classify_both_err1 hc ha (parse_timestamp_not_ok hb)
    · cases hct : parse_timestamp c.updated_at with
      | error er =>
        rw [parse_timestamp_error hct] at hct
        exact classify_both_err1 hc ha hct
      | ok ct => exact classify_both_err2 hc ha hct (parse_timestamp_not_ok hb)
  have herr : ∃ er, compare_datasets csv_data airtable_data = .error er := by
    have hnok : exIsOk (classify csv_data airtable_data e) = false := by rw [hcls]; rfl
    obtain ⟨er, her⟩ := mapE_not_ok hmem hnok
    exact ⟨er, by rw [compare_datasets_eq]; exact her⟩
  refine ⟨herr, ?_⟩
  intro hcomp
  obtain ⟨er, her⟩ := herr
  have her' : mapE (classify csv_data airtable_data)
      (sortedEmails csv_data airtable_data) = .error er := by
    rw [← compare_datasets_eq]
    exact her
  obtain ⟨k, hk, hke⟩ := mapE_error_mem her'
  have hmal : er = .malformedTimestamp := by
    apply classify_error_shape ((mem_sortedEmails k _ _).mp hk) ?_ hke
    intro c' a' hc' ha'
    exact hcomp (k, c') (lookup_eq_some_mem hc') (k, a') (lookup_eq_some_mem ha') rfl
  rw [her, hmal]

/-- C4 witness: a shared key whose remote timestamp is `"not-a-date"` makes
the whole run fail with `MalformedTimestamp`. -/
theorem c4_witness :
    compare_datasets [("a@x.com", ⟨"Ann", "A", "2024-01-02T00:00:00Z"⟩)]
        [("a@x.com", ⟨"Bea", "B", "not-a-date"⟩)] = .error .malformedTimestamp :=
  (c4_malformed_aborts [("a@x.com", ⟨"Ann", "A", "2024-01-02T00:00:00Z"⟩)]
      [("a@x.com", ⟨"Bea", "B", "not-a-date"⟩)] "a@x.com"
      ⟨"Ann", "A", "2024-01-02T00:00:00Z"⟩ ⟨"Bea", "B", "not-a-date"⟩
      (by decide) (by decide) (Or.inr (by decide))).2 (by decide)

/-- C4 counterexample, refuting both halves of the claim as stated: first, a
shared key whose `updated_at` matches neither ISO-8601-with-UTC-designator
pattern (a bare date-time with no `Z`) does not abort the run — the run
succeeds and silently classifies the key as NONE; second, even when a shared
key is genuinely unparseable, the reported error can be `TypeError` from an
earlier aware/naive pair rather than `MalformedTimestamp`. -/
theorem c4_counterexample :
    compare_datasets [("a@x.com", ⟨"Ann", "A", "2024-01-01T10:00:00"⟩)]
        [("a@x.com", ⟨"Bea", "B", "2024-01-01T10:00:00"⟩)] =
      .ok [("NONE", "", "a@x.com")] ∧
    compare_datasets
        [("a@x.com", ⟨"Ann", "A", "2024-01-01T10:00:00"⟩),
         ("b@x.com", ⟨"Bob", "B", "not-a-date"⟩)]
        [("a@x.com", ⟨"Bea", "B", "2024-01-01T11:00:00Z"⟩),
         ("b@x.com", ⟨"Bel", "B", "not-a-date"⟩)] = .error .typeError := by
  decide

/-- C5 counterexample: on the spec's scenario input the code does not return
`[(UPDATE, CSV, a@x.com)]`. -/
theorem c5_counterexample :
    compare_datasets [("a@x.com", ⟨"Ann", "A", "2024-01-02T00:00:00Z"⟩)]
        [("a@x.com", ⟨"Bea", "B", "2024-01-01T00:00:00Z"⟩)] ≠
      .ok [("UPDATE", "CSV", "a@x.com")] := by decide

/-- C5 (amended): for local `a@x.com` at `2024-01-02T00:00:00Z` and remote
`a@x.com` at `2024-01-01T00:00:00Z`, the result is exactly
`[(UPDATE, AIRTABLE, a@x.com)]` — the local (CSV) instant is strictly newer,
so the update targets the side holding the older instant, as §4.2 states. -/
theorem c5_scenario :
    compare_datasets [("a@x.com", ⟨"Ann", "A", "2024-01-02T00:00:00Z"⟩)]
        [("a@x.com", ⟨"Bea", "B", "2024-01-01T00:00:00Z"⟩)] =
      .ok [("UPDATE", "AIRTABLE", "a@x.com")] := by decide

/-- C8: `compare_datasets` is pure and effect-free: run in state-passing
form, the final state is exactly the initial state (every key and every field
of both input mappings is unchanged), and the call produces nothing besides
the value of the pure result function. -/
theorem c8_pure_no_mutation (st : SyncState) :
    compare_datasets_st st = (compare_datasets st.csv_data st.airtable_data, st) := by
  rw [compare_datasets_st, compareGoSt_eq, compare_datasets]

/-- C10: `parse_timestamp` accepts a bare ISO-8601 date-time with neither a
trailing `Z` nor an explicit offset and returns an offset-naive instant; when
such a record shares its key with an offset-aware one, the ordering
comparison inside `compare_datasets` raises `TypeError` — which is not the
`MalformedTimestamp` condition — so `compare_datasets` is not total on such
inputs. -/
theorem c10_naive_accepted_type_error :
    parse_timestamp "2024-01-01T10:00:00" = .ok ⟨2024, 1, 1, 10, 0, 0, 0, none⟩ ∧
    parse_timestamp "2024-01-01T10:00:00Z" = .ok ⟨2024, 1, 1, 10, 0, 0, 0, some 0⟩ ∧
    compare_datasets [("a@x.com", ⟨"Ann", "A", "2024-01-01T10:00:00"⟩)]
        [("a@x.com", ⟨"Bea", "B", "2024-01-01T10:00:00Z"⟩)] = .error .typeError ∧
    SyncError.typeError ≠ SyncError.malformedTimestamp := by decide

/-! ### String-shape lemmas for the Normalizer claims -/

theorem takeWhile_append_dot {pre rest : List Char} (hpre : ∀ ch ∈ pre, ch ≠ '.') :
    (pre ++ '.' :: rest).takeWhile (fun c => c != '.') = pre := by
  induction pre with
  | nil => simp [List.takeWhile_cons]
  | cons x xs ih =>
    have hx : x ≠ '.' := hpre x (List.mem_cons_self x xs)
    rw [List.cons_append, List.takeWhile_cons]
    have hxb : (x != '.') = true := by simpa using hx
    rw [if_pos hxb, ih (fun ch hch => hpre ch (List.mem_cons.mpr (Or.inr hch)))]

theorem stripFraction_fractional {pre d : List Char} (hpre : ∀ ch ∈ pre, ch ≠ '.') :
    stripFraction (pre ++ '.' :: (d ++ ['Z'])) = pre ++ ['Z'] := by
  rw [stripFraction]
  have hcont : (pre ++ '.' :: (d ++ ['Z'])).contains '.' = true := by
    simp [List.contains, List.elem_eq_mem]
  have hlast : endsWithZ (pre ++ '.' :: (d ++ ['Z'])) = true := by
    rw [endsWithZ, show pre ++ '.' :: (d ++ ['Z']) = (pre ++ '.' :: d) ++ ['Z'] by simp,
      List.getLast?_concat]
    rfl
  rw [hcont, hlast]
  simp only [Bool.and_self, if_true]
  rw [takeWhile_append_dot hpre]

/-- C6: the Normalizer strips the fractional-seconds component before any
comparison: two timestamp strings that differ only in the sub-second digits
between the dot and the trailing `Z` produce identical `parse_timestamp`
results. -/
theorem c6_truncation_equivalence (pre d1 d2 : List Char)
    (hpre : ∀ ch ∈ pre, ch ≠ '.')
    (hd1 : ∀ ch ∈ d1, ch.isDigit = true) (hd2 : ∀ ch ∈ d2, ch.isDigit = true) :
    parse_timestamp ⟨pre ++ '.' :: (d1 ++ ['Z'])⟩ =
      parse_timestamp ⟨pre ++ '.' :: (d2 ++ ['Z'])⟩ := by
  simp only [parse_timestamp]
  rw [stripFraction_fractional hpre, stripFraction_fractional hpre]

/-- C6 witness: the spec's own pair of fractional timestamps normalize to the
same instant. -/
theorem c6_witness :
    (∀ ch ∈ "2024-01-01T10:00:00".data, ch ≠ '.') ∧
    parse_timestamp "2024-01-01T10:00:00.123456Z" =
      parse_timestamp "2024-01-01T10:00:00.999999Z" := by
  refine ⟨by decide, ?_⟩
  have h := c6_truncation_equivalence "2024-01-01T10:00:00".data "123456".data "999999".data
    (by decide) (by decide) (by decide)
  have e1 : (⟨"2024-01-01T10:00:00".data ++ '.' :: ("123456".data ++ ['Z'])⟩ : String) =
      "2024-01-01T10:00:00.123456Z" := by decide
  have e2 : (⟨"2024-01-01T10:00:00".data ++ '.' :: ("999999".data ++ ['Z'])⟩ : String) =
      "2024-01-01T10:00:00.999999Z" := by decide
  rw [e1, e2] at h
  exact h

/-- C7 (amended): any string whose normalized form `fromisoformat` cannot
parse fails with `MalformedTimestamp` — e.g. `"not-a-date"` — but a string
need not carry a UTC designator to be accepted: a bare ISO-8601 date-time
such as `"2024-01-01T10:00:00"` (or a bare date `"2024-01-01"`) is parsed
successfully as an offset-naive instant, contrary to the claim's example. -/
theorem c7_rejects_unparseable :
    (∀ s : String, fromisoformat (replaceZ (stripFraction s.data)) = none →
      parse_timestamp s = .error .malformedTimestamp) ∧
    parse_timestamp "not-a-date" = .error .malformedTimestamp ∧
    parse_timestamp "2024-01-01T10:00:00" = .ok ⟨2024, 1, 1, 10, 0, 0, 0, none⟩ ∧
    parse_timestamp "2024-01-01" = .ok ⟨2024, 1, 1, 0, 0, 0, 0, none⟩ :=
  ⟨fun s h => by rw [parse_timestamp, h], by decide, by decide, by decide⟩

/-- C7 witness: `"not-a-date"` is rejected by `fromisoformat` and hence fails
with `MalformedTimestamp`. -/
theorem c7_witness :
    fromisoformat (replaceZ (stripFraction "not-a-date".data)) = none ∧
    parse_timestamp "not-a-date" = .error .malformedTimestamp :=
  ⟨by decide, c7_rejects_unparseable.1 "not-a-date" (by decide)⟩

/-- C7 counterexample: a bare date-time with no UTC designator — which
matches neither the fractional nor the non-fractional ISO-8601-with-Z
pattern — is accepted by `parse_timestamp` instead of failing with
`MalformedTimestamp`. -/
theorem c7_counterexample :
    exIsOk (parse_timestamp "2024-01-01T10:00:00") = true ∧
    parse_timestamp "2024-01-01T10:00:00" ≠ .error .malformedTimestamp := by decide

/-- C9: fractional seconds survive parsing when the timestamp carries an
explicit `+00:00` offset instead of a trailing `Z` (the truncation step fires
only on a trailing `Z`): the spec's example microsecond values 123456 and
999999 are both kept, and any two records on a shared key whose parsed
instants agree in every calendar field, carry offset `+00:00`, and differ
only in microseconds are classified UPDATE (toward the older side), never
NONE. -/
theorem c9_offset_keeps_micros (s1 s2 : String) (dt1 dt2 : DT)
    (hp1 : parse_timestamp s1 = .ok dt1) (hp2 : parse_timestamp s2 = .ok dt2)
    (hy : dt1.year = dt2.year) (hmo : dt1.month = dt2.month) (hd : dt1.day = dt2.day)
    (hh : dt1.hour = dt2.hour) (hmi : dt1.minute = dt2.minute)
    (hs : dt1.second = dt2.second)
    (hoff1 : dt1.tzOffset = some 0) (hoff2 : dt2.tzOffset = some 0)
    (hmic : dt1.microsecond ≠ dt2.microsecond) :
    parse_timestamp "2024-01-01T10:00:00.123456+00:00" =
      .ok ⟨2024, 1, 1, 10, 0, 0, 123456, some 0⟩ ∧
    parse_timestamp "2024-01-01T10:00:00.999999+00:00" =
      .ok ⟨2024, 1, 1, 10, 0, 0, 999999, some 0⟩ ∧
    compare_datasets [("a@x.com", ⟨"Ann", "A", s1⟩)] [("a@x.com", ⟨"Bea", "B", s2⟩)] =
      .ok [("UPDATE",
            if dt2.microsecond < dt1.microsecond then "AIRTABLE" else "CSV",
            "a@x.com")] := by
  refine ⟨by decide, by decide, ?_⟩
  have hc : lookup "a@x.com" [("a@x.com", (⟨"Ann", "A", s1⟩ : Record))] =
      some ⟨"Ann", "A", s1⟩ := by simp [lookup, List.find?]
  have ha : lookup "a@x.com" [("a@x.com", (⟨"Bea", "B", s2⟩ : Record))] =
      some ⟨"Bea", "B", s2⟩ := by simp [lookup, List.find?]
  have hkeys : sortedEmails [("a@x.com", ⟨"Ann", "A", s1⟩)]
      [("a@x.com", ⟨"Bea", "B", s2⟩)] = ["a@x.com"] := by
    rw [sortedEmails]
    simp only [List.map_cons, List.map_nil]
    decide
  have hcmp : dtComparable dt1 dt2 = true := by
    rw [dtComparable, hoff1, hoff2]
    rfl
  rw [compare_datasets_eq, hkeys]
  have hcls := classify_both_ok hc ha hp1 hp2 hcmp
  simp only [mapE, hcls]
  have ht1 : toTimeline dt1 =
      ((toOrdinal dt2.year dt2.month dt2.day * 86400 + dt2.hour * 3600 +
        dt2.minute * 60 + dt2.second) * 1000000 + dt1.microsecond : Nat) := by
    rw [toTimeline, wallMicro, hy, hmo, hd, hh, hmi, hs, hoff1]
    simp
  have ht2 : toTimeline dt2 =
      ((toOrdinal dt2.year dt2.month dt2.day * 86400 + dt2.hour * 3600 +
        dt2.minute * 60 + dt2.second) * 1000000 + dt2.microsecond : Nat) := by
    rw [toTimeline, wallMicro, hoff2]
    simp
  have hne' : ¬ (toTimeline dt1 = toTimeline dt2) := by
    rw [ht1, ht2]
    intro hcontra
    apply hmic
    omega
  rw [if_neg hne']
  by_cases hlt : dt2.microsecond < dt1.microsecond
  · have : toTimeline dt2 < toTimeline dt1 := by rw [ht1, ht2]; push_cast; omega
    rw [if_pos this, if_pos hlt]
  · have : ¬ (toTimeline dt2 < toTimeline dt1) := by rw [ht1, ht2]; push_cast; omega
    rw [if_neg this, if_neg hlt]

/-- C9 witness: the spec's own example pair, differing only in microseconds
under an explicit `+00:00` offset, is classified UPDATE toward the CSV side
(the remote instant is the newer one). -/
theorem c9_witness :
    compare_datasets
        [("a@x.com", ⟨"Ann", "A", "2024-01-01T10:00:00.123456+00:00"⟩)]
        [("a@x.com", ⟨"Bea", "B", "2024-01-01T10:00:00.999999+00:00"⟩)] =
      .ok [("UPDATE", if (999999 : Nat) < 123456 then "AIRTABLE" else "CSV", "a@x.com")] :=
  (c9_offset_keeps_micros "2024-01-01T10:00:00.123456+00:00"
    "2024-01-01T10:00:00.999999+00:00"
    ⟨2024, 1, 1, 10, 0, 0, 123456, some 0⟩ ⟨2024, 1, 1, 10, 0, 0, 999999, some 0⟩
    (by decide) (by decide) rfl rfl rfl rfl rfl rfl rfl rfl (by decide)).2.2

end Sync
